import Mathlib

/-!
Verification development for the greenleafy plant-telemetry demo.

The repository has four source components:
* a random-walk telemetry generator (`publishLoop` in the generator script):
  drifts four metric values by bounded random deltas, clamps them, and
  publishes one payload per metric per cycle, each guarded by its own
  try/catch and a non-empty-receivers check;
* `socket.service.js`: Socket.IO handlers that republish browser telemetry
  onto the bus, plus `emitToAll`, a broadcast primitive that no-ops with a
  warning before initialization;
* `ensync.emit.service.js`: a relay that subscribes to bus topics, unwraps
  payload envelopes with `extractPayload`, and broadcasts every message on a
  generic `ensync_event` channel plus, for mapped topics, on a per-topic
  Socket.IO channel from the static `socketEventMap`;
* `publisher-test.js`: an experimental publisher/subscriber script sharing
  the same `extractPayload` helper.

JavaScript numbers are modelled as rationals (`ℚ`), `Math.floor` as
`Int.floor`, environment variables as `Option String` (with JavaScript
string truthiness made explicit), and effectful calls (bus publishes,
Socket.IO emits, console logs) as explicit result lists.  Randomness is
modelled by passing each `Math.random()` draw as a parameter `r` with
`0 ≤ r < 1` where a claim needs that bound.
-/

namespace Greenleafy

/-! ## JavaScript values (for payloads and envelopes) -/

/-- A JavaScript value, as far as the relay's payload handling observes it:
`null`, `undefined`, numbers, strings, booleans, and objects as association
lists of fields. -/
inductive JVal where
  | vnull : JVal
  | vundefined : JVal
  | vnum : ℚ → JVal
  | vstr : String → JVal
  | vbool : Bool → JVal
  | vobj : List (String × JVal) → JVal

/-- Whether a value is nullish (`null` or `undefined`), the test used by the
`??` operator. -/
def JVal.isNullish : JVal → Bool
  | .vnull => true
  | .vundefined => true
  | _ => false

/-- Field lookup in an object association list; a missing field reads as
`undefined`, as JavaScript property access does on objects. -/
def lookupField : List (String × JVal) → String → JVal
  | [], _ => .vundefined
  | (k, v) :: rest, key => if k = key then v else lookupField rest key

/-- Property access `x.key` as `extractPayload` uses it: on an object it is
association-list lookup; the helper only dereferences values it has already
checked to be non-null objects, so other cases read as `undefined`. -/
def JVal.getProp : JVal → String → JVal
  | .vobj fields, key => lookupField fields key
  | _, _ => .vundefined

/-! ## Random-walk telemetry generator (generator script) -/

/-- `clamp(v, min, max)` from the generator script:
`Math.max(min, Math.min(max, v))`. -/
def clamp (v mn mx : ℚ) : ℚ := max mn (min mx v)

/-- `randInt(min, max)` from the generator script:
`Math.floor(Math.random() * (max - min + 1)) + min`, with the
`Math.random()` draw `r` passed explicitly. -/
def randInt (r : ℚ) (mn mx : ℤ) : ℤ :=
  ⌊r * ((mx : ℚ) - (mn : ℚ) + 1)⌋ + mn

/-- The temperature drift `(Math.random() - 0.5) * 0.8`, with the
`Math.random()` draw `r` passed explicitly. -/
def tempDelta (r : ℚ) : ℚ := (r - 1/2) * (8/10)

/-- `Math.round` on the non-negative values this program rounds:
`⌊q + 1/2⌋` (round half up). -/
def jsRound (q : ℚ) : ℤ := ⌊q + 1/2⌋

/-- `Number(x.toFixed(1))` on the in-range positive temperatures this program
formats: round to one decimal place. -/
def roundTo1 (q : ℚ) : ℚ := ((jsRound (q * 10) : ℤ) : ℚ) / 10

/-- The generator's drifting state: current water level (%), soil moisture
(%), temperature (°C) and light (lux). -/
structure SimState where
  waterLevel : ℚ
  soilMoisture : ℚ
  temperatureC : ℚ
  lightLux : ℚ
deriving DecidableEq

/-- One cycle of drift updates (generator script lines 54–63): each metric
moves by its kind-specific random delta and is clamped to its kind's bounds.
`rw`, `rs`, `rt`, `rl` are the four `Math.random()` draws. -/
def tickStep (s : SimState) (rw rs rt rl : ℚ) : SimState where
  waterLevel := clamp (s.waterLevel + ((randInt rw (-2) 2 : ℤ) : ℚ)) 5 95
  soilMoisture := clamp (s.soilMoisture + ((randInt rs (-2) 3 : ℤ) : ℚ)) 10 90
  temperatureC := clamp (s.temperatureC + tempDelta rt) 12 35
  lightLux := clamp (s.lightLux + ((randInt rl (-900) 900 : ℤ) : ℚ)) 500 20000

/-! ## Bounds lemmas -/

/-- `clamp` lands in `[mn, mx]` whenever `mn ≤ mx`. -/
theorem clamp_mem (v mn mx : ℚ) (h : mn ≤ mx) :
    mn ≤ clamp v mn mx ∧ clamp v mn mx ≤ mx := by
  unfold clamp
  constructor
  · exact le_max_left _ _
  · exact max_le h (min_le_left _ _)

/-- `randInt r mn mx` lies in `[mn, mx]` for `0 ≤ r < 1` and `mn ≤ mx`. -/
theorem randInt_mem (r : ℚ) (mn mx : ℤ) (h0 : 0 ≤ r) (h1 : r < 1)
    (hle : mn ≤ mx) : mn ≤ randInt r mn mx ∧ randInt r mn mx ≤ mx := by
  unfold randInt
  have hn : (0 : ℚ) ≤ (mx : ℚ) - (mn : ℚ) + 1 := by
    have : (mn : ℚ) ≤ (mx : ℚ) := by exact_mod_cast hle
    linarith
  constructor
  · have : (0 : ℤ) ≤ ⌊r * ((mx : ℚ) - (mn : ℚ) + 1)⌋ := by
      apply Int.le_floor.mpr
      push_cast
      exact mul_nonneg h0 hn
    omega
  · have hpos : (0 : ℚ) < (mx : ℚ) - (mn : ℚ) + 1 := by
      have : (mn : ℚ) ≤ (mx : ℚ) := by exact_mod_cast hle
      linarith
    have hlt : r * ((mx : ℚ) - (mn : ℚ) + 1) < (mx : ℚ) - (mn : ℚ) + 1 := by
      nlinarith
    have : ⌊r * ((mx : ℚ) - (mn : ℚ) + 1)⌋ < mx - mn + 1 := by
      apply Int.floor_lt.mpr
      push_cast
      exact hlt
    omega

/-- The temperature delta lies in `[-0.4, 0.4]` for `0 ≤ r < 1`. -/
theorem tempDelta_mem (r : ℚ) (h0 : 0 ≤ r) (h1 : r < 1) :
    -(2/5) ≤ tempDelta r ∧ tempDelta r ≤ 2/5 := by
  unfold tempDelta
  constructor <;> nlinarith

/-- Rounding keeps a value inside integer bounds. -/
theorem jsRound_mem (a b : ℤ) (q : ℚ) (ha : (a : ℚ) ≤ q) (hb : q ≤ (b : ℚ)) :
    a ≤ jsRound q ∧ jsRound q ≤ b := by
  unfold jsRound
  constructor
  · apply Int.le_floor.mpr
    linarith
  · apply Int.lt_add_one_iff.mp
    apply Int.floor_lt.mpr
    push_cast
    linarith

/-- Rounding to one decimal keeps a value inside integer bounds. -/
theorem roundTo1_mem (a b : ℤ) (q : ℚ) (ha : (a : ℚ) ≤ q) (hb : q ≤ (b : ℚ)) :
    (a : ℚ) ≤ roundTo1 q ∧ roundTo1 q ≤ (b : ℚ) := by
  unfold roundTo1
  have h := jsRound_mem (a * 10) (b * 10) (q * 10)
    (by push_cast; linarith) (by push_cast; linarith)
  obtain ⟨h1, h2⟩ := h
  constructor
  · rw [le_div_iff₀ (show (0 : ℚ) < 10 by norm_num)]
    exact_mod_cast h1
  · rw [div_le_iff₀ (show (0 : ℚ) < 10 by norm_num)]
    exact_mod_cast h2

/-! ## Topic names -/

/-- The workspace prefix used by all three services. -/
def workspaceName : String := "progo"

/-- Topic `progo/plant/water`. -/
def plantWaterEventName : String := workspaceName ++ "/plant/water"

/-- Topic `progo/plant/soil`. -/
def plantSoilEventName : String := workspaceName ++ "/plant/soil"

/-- Topic `progo/plant/temperature`. -/
def plantTempEventName : String := workspaceName ++ "/plant/temperature"

/-- Topic `progo/plant/light`. -/
def plantLightEventName : String := workspaceName ++ "/plant/light"

/-! ## JavaScript string truthiness and environment variables -/

/-- JavaScript truthiness of an environment variable: `undefined` and the
empty string are falsy, every other string is truthy. -/
def jsTruthyStr : Option String → Bool
  | none => false
  | some s => !(s = "")

/-- JavaScript `a || b` on two environment strings. -/
def jsOrStr (a b : Option String) : Option String :=
  if jsTruthyStr a then a else b

/-- `receiversId` in the generator script (and `publisher-test.js`):
`[process.env.RECEIVER_IDENTIFICATION_NUMBER].filter(Boolean)` — the
one-element array with the falsy entry filtered out. -/
def receiversIdGen (env : Option String) : List (Option String) :=
  [env].filter jsTruthyStr

/-- `receiversId` in `socket.service.js` line 17:
`[process.env.RECEIVER_IDENTIFICATION_NUMBER]` — the raw one-element array,
with no `.filter(Boolean)`. -/
def receiversIdSocket (env : Option String) : List (Option String) := [env]

/-! ## Generator publish cycle -/

/-- One bus-transport invocation made by the generator: the topic, the
moment the call happens, and the payload's numeric value and `timestamp`
field. -/
structure PublishedMsg where
  topic : String
  sendTime : ℤ
  payloadTimestamp : ℤ
  value : ℚ
deriving DecidableEq

/-- One guarded publish from the generator loop (the pattern of lines
65–76 and its three copies): inside `try`, if `receiversId.length > 0` the
transport's `publish` is invoked; if that invocation fails (`fail topic`
reports an error string) the `catch` logs the metric's fixed message
together with the error, and control continues.  Returns the transport
invocations made and the error log entries produced. -/
def publishGuarded (receivers : List (Option String)) (topic label : String)
    (value : ℚ) (sendTime now : ℤ) (fail : String → Option String) :
    List PublishedMsg × List (String × String) :=
  if receivers.length > 0 then
    ([{ topic := topic, sendTime := sendTime, payloadTimestamp := now,
        value := value }],
     match fail topic with
     | some e => [("Failed to publish " ++ label, e)]
     | none => [])
  else ([], [])

/-- One full iteration of the generator's `while (true)` body (lines
50–144): capture `now` once, drift all four metrics, then publish water,
soil, temperature and light in order with sleeps of `d1`, `d2`, `d3`
milliseconds between them.  Each publish is independently guarded by the
receivers check and its own try/catch.  Returns the transport invocations,
the error logs, and the updated state. -/
structure CycleResult where
  published : List PublishedMsg
  errorLogs : List (String × String)
  state : SimState
deriving DecidableEq

/-- Run one generator cycle; `fail` is the transport oracle giving, per
topic, the error thrown by this cycle's `publish` call there (if any). -/
def runCycle (startTime : ℤ) (s : SimState) (rw rs rt rl : ℚ)
    (d1 d2 d3 : ℤ) (receivers : List (Option String))
    (fail : String → Option String) : CycleResult :=
  let now := startTime
  let s' := tickStep s rw rs rt rl
  let water := publishGuarded receivers plantWaterEventName "water"
    ((jsRound s'.waterLevel : ℤ) : ℚ) startTime now fail
  let soil := publishGuarded receivers plantSoilEventName "soil"
    ((jsRound s'.soilMoisture : ℤ) : ℚ) (startTime + d1) now fail
  let temp := publishGuarded receivers plantTempEventName "temp"
    (roundTo1 s'.temperatureC) (startTime + d1 + d2) now fail
  let light := publishGuarded receivers plantLightEventName "light"
    ((jsRound s'.lightLux : ℤ) : ℚ) (startTime + d1 + d2 + d3) now fail
  { published := water.1 ++ soil.1 ++ temp.1 ++ light.1
    errorLogs := water.2 ++ soil.2 ++ temp.2 ++ light.2
    state := s' }

/-! ## Fanout broadcaster (`socket.service.js`) -/

/-- The Socket.IO server as the broadcaster observes it: the currently
connected clients. -/
structure SocketServer where
  clients : List String

/-- Result of one `emitToAll` call: whether the not-initialized warning was
logged, and the `(client, channel, payload)` deliveries performed. -/
structure EmitResult where
  warned : Bool
  deliveries : List (String × String × JVal)

/-- `emitToAll(event, payload)` from `socket.service.js` lines 147–153: if
the module-scoped `ioRef` is still `null`, log a warning and return without
effect; otherwise `io.emit` sends the payload on the channel to every
connected client. -/
def emitToAll (ioRef : Option SocketServer) (event : String)
    (payload : JVal) : EmitResult :=
  match ioRef with
  | none => { warned := true, deliveries := [] }
  | some io => { warned := false
                 deliveries := io.clients.map fun c => (c, event, payload) }

/-- One `plant_*` socket handler's publish path (`socket.service.js` lines
60–77 and its three copies): guarded by `receiversId.length > 0`, packaged
as `(topic, receiversId, payload)` handed to the bus client; on failure the
catch logs the topic name and the error.  The receiver list here is the
unfiltered `receiversIdSocket`. -/
def plantHandlerPublish (env : Option String) (topic : String)
    (payload : JVal) (fail : Option String) :
    List (String × List (Option String) × JVal) × List (String × String) :=
  if (receiversIdSocket env).length > 0 then
    ([(topic, receiversIdSocket env, payload)],
     match fail with
     | some e => [(topic, e)]
     | none => [])
  else ([], [])

/-! ## Topic-to-channel relay (`ensync.emit.service.js`) -/

/-- The static `socketEventMap`: bus topic → Socket.IO event name. -/
def socketEventMap : List (String × String) :=
  [(workspaceName ++ "/plant/water", "plant_water"),
   (workspaceName ++ "/plant/soil", "plant_soil"),
   (workspaceName ++ "/plant/temperature", "plant_temp"),
   (workspaceName ++ "/plant/light", "plant_light")]

/-- Association-list lookup modelling the JavaScript object property read
`socketEventMap[topic]` (absent key reads as `undefined`/`none`). -/
def lookupTopic : List (String × String) → String → Option String
  | [], _ => none
  | (k, v) :: rest, key => if k = key then some v else lookupTopic rest key

/-- `extractPayload(evt)` from `ensync.emit.service.js` lines 52–57 (also
`publisher-test.js` lines 31–36): for a non-null object,
`evt.payload ?? evt.data ?? evt`; anything else is returned as is. -/
def extractPayload (evt : JVal) : JVal :=
  match evt with
  | .vobj _ =>
      let p := evt.getProp "payload"
      let d := evt.getProp "data"
      if p.isNullish then (if d.isNullish then evt else d) else p
  | _ => evt

/-- The relay's per-message handler (`ensync.emit.service.js` lines
92–107), as the list of `emitToAll` calls it issues: always one broadcast
of `{eventName, payload, raw}` on the generic `ensync_event` channel, then,
if `socketEventMap[topic]` is truthy, one broadcast of the extracted
payload on that mapped channel. -/
def relayHandleEvent (topic : String) (event : JVal) :
    List (String × JVal) :=
  let payload := extractPayload event
  let passthrough :=
    ("ensync_event",
     JVal.vobj [("eventName", .vstr topic), ("payload", payload),
                ("raw", event)])
  match lookupTopic socketEventMap topic with
  | some mapped =>
      if mapped = "" then [passthrough] else [passthrough, (mapped, payload)]
  | none => [passthrough]

/-! ## Relay startup (`startSubscriber`) -/

/-- Result of the relay's startup path: the warnings/errors logged, whether
a bus client was created, and the topics successfully subscribed. -/
structure RelayStart where
  warnings : List String
  clientCreated : Bool
  subscriptions : List String
deriving DecidableEq

/-- The warning `startSubscriber` logs when a credential is missing. -/
def missingCredsMsg : String :=
  "Missing ENSYNC credentials (ENSYNC_CLIENT_ID/CLIENT_ACCESS_KEY or SECRET_KEY)"

/-- Topic selection (`ensync.emit.service.js` lines 33–38): the
comma-separated `EVENT_TO_PUBLISH` override, trimmed and with empty entries
dropped; if that is empty, every key of `socketEventMap`. -/
def relayTopics (env : String → Option String) : List String :=
  let envTopics := (((env "EVENT_TO_PUBLISH").getD "").splitOn ",").map
    String.trim |>.filter fun s => !(s = "")
  if envTopics.length > 0 then envTopics else socketEventMap.map Prod.fst

/-- `startSubscriber()` from `ensync.emit.service.js` lines 19–137, with
the external SDK abstracted by two oracles: `createOk` (does
`createClient` succeed) and `subOk` (does `subscribe` succeed per topic).
If either credential is falsy, it logs the warning and returns at once —
no client, no subscriptions.  Otherwise it creates the client and attempts
each selected topic, logging a warning per failed subscribe and continuing
with the rest; a `createClient` failure is caught by the outer try and
logged. -/
def startSubscriber (env : String → Option String) (createOk : Bool)
    (subOk : String → Bool) : RelayStart :=
  let clientAccessKey := jsOrStr (env "ENSYNC_CLIENT_ID")
    (env "CLIENT_ACCESS_KEY")
  let appSecretKey := env "SECRET_KEY"
  if !jsTruthyStr clientAccessKey || !jsTruthyStr appSecretKey then
    { warnings := [missingCredsMsg], clientCreated := false,
      subscriptions := [] }
  else if !createOk then
    { warnings := ["Subscriber initialization failed"],
      clientCreated := false, subscriptions := [] }
  else
    { warnings := (relayTopics env).filterMap fun t =>
        if subOk t then none else some ("Failed to subscribe to topic " ++ t)
      clientCreated := true
      subscriptions := (relayTopics env).filter subOk }

/-! ## Claim theorems -/

/-- C1: after every generator tick, each metric value is within its kind's
clamp bounds — water level in `[5, 95]`, soil moisture in `[10, 90]`,
temperature in `[12, 35]`, light in `[500, 20000]` — and every sample the
cycle emits carries a value inside its topic's range. -/
theorem tick_values_in_range (s : SimState) (rw rs rt rl : ℚ)
    (startTime d1 d2 d3 : ℤ) (receivers : List (Option String))
    (fail : String → Option String) :
    (5 ≤ (tickStep s rw rs rt rl).waterLevel ∧
      (tickStep s rw rs rt rl).waterLevel ≤ 95) ∧
    (10 ≤ (tickStep s rw rs rt rl).soilMoisture ∧
      (tickStep s rw rs rt rl).soilMoisture ≤ 90) ∧
    (12 ≤ (tickStep s rw rs rt rl).temperatureC ∧
      (tickStep s rw rs rt rl).temperatureC ≤ 35) ∧
    (500 ≤ (tickStep s rw rs rt rl).lightLux ∧
      (tickStep s rw rs rt rl).lightLux ≤ 20000) ∧
    ∀ m ∈ (runCycle startTime s rw rs rt rl d1 d2 d3 receivers
        fail).published,
      (m.topic = plantWaterEventName → 5 ≤ m.value ∧ m.value ≤ 95) ∧
      (m.topic = plantSoilEventName → 10 ≤ m.value ∧ m.value ≤ 90) ∧
      (m.topic = plantTempEventName → 12 ≤ m.value ∧ m.value ≤ 35) ∧
      (m.topic = plantLightEventName → 500 ≤ m.value ∧ m.value ≤ 20000) := by
  have hw := clamp_mem (s.waterLevel + ((randInt rw (-2) 2 : ℤ) : ℚ)) 5 95
    (by norm_num)
  have hs := clamp_mem (s.soilMoisture + ((randInt rs (-2) 3 : ℤ) : ℚ)) 10 90
    (by norm_num)
  have ht := clamp_mem (s.temperatureC + tempDelta rt) 12 35 (by norm_num)
  have hl := clamp_mem (s.lightLux + ((randInt rl (-900) 900 : ℤ) : ℚ)) 500
    20000 (by norm_num)
  have hwR := jsRound_mem 5 95 _ (by push_cast; exact hw.1)
    (by push_cast; exact hw.2)
  have hsR := jsRound_mem 10 90 _ (by push_cast; exact hs.1)
    (by push_cast; exact hs.2)
  have htR := roundTo1_mem 12 35 _ (by push_cast; exact ht.1)
    (by push_cast; exact ht.2)
  have hlR := jsRound_mem 500 20000 _ (by push_cast; exact hl.1)
    (by push_cast; exact hl.2)
  refine ⟨⟨hw.1, hw.2⟩, ⟨hs.1, hs.2⟩, ⟨ht.1, ht.2⟩, ⟨hl.1, hl.2⟩, ?_⟩
  intro m hm
  by_cases hr : receivers.length > 0
  · simp only [runCycle, publishGuarded, if_pos hr, tickStep,
      List.mem_append, List.mem_singleton] at hm
    rcases hm with ((h | h) | h) | h <;> subst h <;>
      refine ⟨fun htop => ?_, fun htop => ?_, fun htop => ?_,
        fun htop => ?_⟩ <;>
      simp only [plantWaterEventName, plantSoilEventName,
        plantTempEventName, plantLightEventName, workspaceName] at htop ⊢ <;>
      first
        | (exact absurd htop (by decide))
        | (constructor <;> simp only [tickStep] at hwR hsR htR hlR <;>
            first
              | (exact_mod_cast hwR.1) | (exact_mod_cast hwR.2)
              | (exact_mod_cast hsR.1) | (exact_mod_cast hsR.2)
              | (exact htR.1) | (exact htR.2)
              | (exact_mod_cast hlR.1) | (exact_mod_cast hlR.2))
  · simp only [runCycle, publishGuarded, if_neg hr, List.append_nil,
      List.not_mem_nil] at hm

/-- C2: each generator tick updates every metric as
`value ← clamp(value + delta, lowBound, highBound)` with kind-specific
delta ranges (water `[-2, 2]`, soil `[-2, 3]`, temperature `[-0.4, 0.4]`,
light `[-900, 900]`), and a temperature update whose unclamped result would
be `36` is clamped to `35`. -/
theorem tick_is_clamped_drift (s : SimState) (rw rs rt rl : ℚ)
    (hw0 : 0 ≤ rw) (hw1 : rw < 1) (hs0 : 0 ≤ rs) (hs1 : rs < 1)
    (ht0 : 0 ≤ rt) (ht1 : rt < 1) (hl0 : 0 ≤ rl) (hl1 : rl < 1) :
    ∃ dw ds dt dl : ℚ,
      (-2 ≤ dw ∧ dw ≤ 2 ∧
        (tickStep s rw rs rt rl).waterLevel = clamp (s.waterLevel + dw) 5 95) ∧
      (-2 ≤ ds ∧ ds ≤ 3 ∧
        (tickStep s rw rs rt rl).soilMoisture =
          clamp (s.soilMoisture + ds) 10 90) ∧
      (-(2/5) ≤ dt ∧ dt ≤ 2/5 ∧
        (tickStep s rw rs rt rl).temperatureC =
          clamp (s.temperatureC + dt) 12 35) ∧
      (-900 ≤ dl ∧ dl ≤ 900 ∧
        (tickStep s rw rs rt rl).lightLux =
          clamp (s.lightLux + dl) 500 20000) ∧
      clamp 36 12 35 = 35 := by
  have hw := randInt_mem rw (-2) 2 hw0 hw1 (by norm_num)
  have hs := randInt_mem rs (-2) 3 hs0 hs1 (by norm_num)
  have ht := tempDelta_mem rt ht0 ht1
  have hl := randInt_mem rl (-900) 900 hl0 hl1 (by norm_num)
  refine ⟨((randInt rw (-2) 2 : ℤ) : ℚ), ((randInt rs (-2) 3 : ℤ) : ℚ),
    tempDelta rt, ((randInt rl (-900) 900 : ℤ) : ℚ),
    ⟨by exact_mod_cast hw.1, by exact_mod_cast hw.2, rfl⟩,
    ⟨by exact_mod_cast hs.1, by exact_mod_cast hs.2, rfl⟩,
    ⟨ht.1, ht.2, rfl⟩,
    ⟨by exact_mod_cast hl.1, by exact_mod_cast hl.2, rfl⟩, ?_⟩
  unfold clamp
  norm_num

/-- Witness for C2, at state `(50, 50, 20, 1000)` and all four random draws
equal to `0`. -/
theorem tick_is_clamped_drift_witness :
    ∃ dw ds dt dl : ℚ,
      (-2 ≤ dw ∧ dw ≤ 2 ∧
        (tickStep ⟨50, 50, 20, 1000⟩ 0 0 0 0).waterLevel =
          clamp (50 + dw) 5 95) ∧
      (-2 ≤ ds ∧ ds ≤ 3 ∧
        (tickStep ⟨50, 50, 20, 1000⟩ 0 0 0 0).soilMoisture =
          clamp (50 + ds) 10 90) ∧
      (-(2/5) ≤ dt ∧ dt ≤ 2/5 ∧
        (tickStep ⟨50, 50, 20, 1000⟩ 0 0 0 0).temperatureC =
          clamp (20 + dt) 12 35) ∧
      (-900 ≤ dl ∧ dl ≤ 900 ∧
        (tickStep ⟨50, 50, 20, 1000⟩ 0 0 0 0).lightLux =
          clamp (1000 + dl) 500 20000) ∧
      clamp 36 12 35 = 35 :=
  tick_is_clamped_drift ⟨50, 50, 20, 1000⟩ 0 0 0 0
    le_rfl (by norm_num) le_rfl (by norm_num)
    le_rfl (by norm_num) le_rfl (by norm_num)

/-- C3: with an empty receiver list, a guarded publish makes no transport
invocation and produces no error log — for every topic, label, payload and
transport behaviour — and a whole generator cycle publishes nothing and
logs nothing. -/
theorem publish_empty_receivers_noop (topic label : String) (value : ℚ)
    (sendTime now startTime : ℤ) (s : SimState) (rw rs rt rl : ℚ)
    (d1 d2 d3 : ℤ) (fail : String → Option String) :
    publishGuarded [] topic label value sendTime now fail = ([], []) ∧
    (runCycle startTime s rw rs rt rl d1 d2 d3 [] fail).published = [] ∧
    (runCycle startTime s rw rs rt rl d1 d2 d3 [] fail).errorLogs = [] :=
  ⟨rfl, rfl, rfl⟩

/-- Every channel name in `socketEventMap` is one of the four `plant_*`
names. -/
theorem socketEventMap_values (topic m : String)
    (h : lookupTopic socketEventMap topic = some m) :
    m = "plant_water" ∨ m = "plant_soil" ∨ m = "plant_temp" ∨
      m = "plant_light" := by
  simp only [socketEventMap, lookupTopic, workspaceName] at h
  split_ifs at h <;> simp_all

/-- C4: for every received message, the relay handler issues exactly one
broadcast on the generic `ensync_event` passthrough channel, carrying the
topic name and extracted payload; a topic present in `socketEventMap`
additionally gets exactly one broadcast of the extracted payload on its
mapped channel, and a topic absent from the map gets only the passthrough
broadcast. -/
theorem relay_broadcasts (topic : String) (event : JVal) :
    (relayHandleEvent topic event).countP
        (fun e => e.1 == "ensync_event") = 1 ∧
    (relayHandleEvent topic event).head? =
      some ("ensync_event",
        JVal.vobj [("eventName", .vstr topic),
                   ("payload", extractPayload event), ("raw", event)]) ∧
    (∀ mapped, lookupTopic socketEventMap topic = some mapped →
      relayHandleEvent topic event =
        [("ensync_event",
          JVal.vobj [("eventName", .vstr topic),
                     ("payload", extractPayload event), ("raw", event)]),
         (mapped, extractPayload event)]) ∧
    (lookupTopic socketEventMap topic = none →
      relayHandleEvent topic event =
        [("ensync_event",
          JVal.vobj [("eventName", .vstr topic),
                     ("payload", extractPayload event), ("raw", event)])]) := by
  cases hmap : lookupTopic socketEventMap topic with
  | none =>
      refine ⟨?_, ?_, ?_, fun _ => ?_⟩ <;>
        simp [relayHandleEvent, hmap]
  | some m =>
      rcases socketEventMap_values topic m hmap with h | h | h | h <;>
        subst h <;>
        refine ⟨?_, ?_, ?_, ?_⟩ <;>
        simp [relayHandleEvent, hmap]

/-- Witness for C4 (spec scenario B): the relay receives
`{payload: {moisture: 44}}` on `progo/plant/soil` and broadcasts the
envelope on `ensync_event` plus `{moisture: 44}` on `plant_soil`. -/
theorem relay_broadcasts_witness :
    relayHandleEvent "progo/plant/soil"
        (JVal.vobj [("payload", JVal.vobj [("moisture", JVal.vnum 44)])]) =
      [("ensync_event",
        JVal.vobj [("eventName", .vstr "progo/plant/soil"),
                   ("payload", JVal.vobj [("moisture", JVal.vnum 44)]),
                   ("raw", JVal.vobj [("payload",
                      JVal.vobj [("moisture", JVal.vnum 44)])])]),
       ("plant_soil", JVal.vobj [("moisture", JVal.vnum 44)])] := by
  have h := (relay_broadcasts "progo/plant/soil"
      (JVal.vobj [("payload",
        JVal.vobj [("moisture", JVal.vnum 44)])])).2.2.1 "plant_soil" rfl
  exact h

/-- C5 counterexample: `extractPayload` is not idempotent on every
envelope — on `{payload: {payload: 1}}` the first application yields
`{payload: 1}`, which a second application unwraps further to `1`. -/
theorem extractPayload_not_idempotent :
    ¬ ∀ e : JVal, extractPayload (extractPayload e) = extractPayload e := by
  intro h
  have h2 := h (JVal.vobj [("payload",
    JVal.vobj [("payload", JVal.vnum 1)])])
  rw [show extractPayload (JVal.vobj [("payload",
      JVal.vobj [("payload", JVal.vnum 1)])]) =
      JVal.vobj [("payload", JVal.vnum 1)] from rfl] at h2
  rw [show extractPayload (JVal.vobj [("payload", JVal.vnum 1)]) =
      JVal.vnum 1 from rfl] at h2
  exact JVal.noConfusion h2

/-- A value is already unwrapped when it is not an object, or when its
`payload` and `data` fields are both nullish or absent — exactly the
values on which `extractPayload` falls through to the raw message. -/
def isUnwrapped (x : JVal) : Prop :=
  match x with
  | .vobj _ => (x.getProp "payload").isNullish = true ∧
      (x.getProp "data").isNullish = true
  | _ => True

/-- C5 (amended): `extractPayload` returns every already-unwrapped value
unchanged — any non-object, and any object whose `payload` and `data`
fields are nullish or absent.  (Full idempotence fails: see the
counterexample with a nested `payload` envelope.) -/
theorem extractPayload_fixes_unwrapped (x : JVal) (h : isUnwrapped x) :
    extractPayload x = x := by
  cases x with
  | vobj fields =>
      obtain ⟨h1, h2⟩ := h
      simp [extractPayload, h1, h2]
  | vnull => rfl
  | vundefined => rfl
  | vnum q => rfl
  | vstr s => rfl
  | vbool b => rfl

/-- Witness for the amended C5, at the bare payload `{moisture: 44}`. -/
theorem extractPayload_fixes_unwrapped_witness :
    isUnwrapped (JVal.vobj [("moisture", JVal.vnum 44)]) ∧
    extractPayload (JVal.vobj [("moisture", JVal.vnum 44)]) =
      JVal.vobj [("moisture", JVal.vnum 44)] :=
  ⟨⟨rfl, rfl⟩, extractPayload_fixes_unwrapped _ ⟨rfl, rfl⟩⟩

/-- C6: if either the client access key or the secret key is falsy at relay
startup, `startSubscriber` logs the missing-credentials warning and returns
at once — no client is created and no subscription is attempted; being a
total function that returns normally, it neither crashes nor stops the rest
of the process. -/
theorem relay_missing_credentials_noop (env : String → Option String)
    (createOk : Bool) (subOk : String → Bool)
    (h : jsTruthyStr (jsOrStr (env "ENSYNC_CLIENT_ID")
          (env "CLIENT_ACCESS_KEY")) = false ∨
        jsTruthyStr (env "SECRET_KEY") = false) :
    startSubscriber env createOk subOk =
      { warnings := [missingCredsMsg], clientCreated := false,
        subscriptions := [] } := by
  unfold startSubscriber
  rcases h with h | h <;> simp [h]

/-- Witness for C6, with every environment variable unset. -/
theorem relay_missing_credentials_noop_witness :
    startSubscriber (fun _ => none) true (fun _ => true) =
      { warnings := [missingCredsMsg], clientCreated := false,
        subscriptions := [] } :=
  relay_missing_credentials_noop (fun _ => none) true (fun _ => true)
    (Or.inl rfl)

/-- C7 counterexample: when the water publish fails with error `"boom"`,
the cycle's only error log entry is `("Failed to publish water", "boom")` —
the message names the metric but does not contain the topic name
`progo/plant/water`, so the claim "logged with the topic name" fails as
stated. -/
theorem publish_failure_log_lacks_topic_name :
    (runCycle 0 ⟨50, 50, 20, 1000⟩ 0 0 0 0 1 1 1 [some "r"]
        (fun t => if t = plantWaterEventName then some "boom"
          else none)).errorLogs =
      [("Failed to publish water", "boom")] ∧
    ¬ plantWaterEventName.data <:+: "Failed to publish water".data :=
  ⟨by decide, by decide⟩

/-- C7 (amended): a publish failure for one metric is caught by that
metric's own try/catch, logged with a fixed metric-identifying message
(`"Failed to publish water"`, …, not the full topic string) together with
the error detail, and swallowed: the cycle still invokes the transport for
all four metrics in order, whatever failures the transport reports. -/
theorem cycle_publish_failures_isolated (startTime : ℤ) (s : SimState)
    (rw rs rt rl : ℚ) (d1 d2 d3 : ℤ) (receivers : List (Option String))
    (fail : String → Option String) (hr : receivers.length > 0) :
    (runCycle startTime s rw rs rt rl d1 d2 d3 receivers
        fail).published.map PublishedMsg.topic =
      [plantWaterEventName, plantSoilEventName, plantTempEventName,
       plantLightEventName] ∧
    (∀ e, fail plantWaterEventName = some e →
      ("Failed to publish water", e) ∈
        (runCycle startTime s rw rs rt rl d1 d2 d3 receivers
          fail).errorLogs) ∧
    (∀ e, fail plantSoilEventName = some e →
      ("Failed to publish soil", e) ∈
        (runCycle startTime s rw rs rt rl d1 d2 d3 receivers
          fail).errorLogs) ∧
    (∀ e, fail plantTempEventName = some e →
      ("Failed to publish temp", e) ∈
        (runCycle startTime s rw rs rt rl d1 d2 d3 receivers
          fail).errorLogs) ∧
    (∀ e, fail plantLightEventName = some e →
      ("Failed to publish light", e) ∈
        (runCycle startTime s rw rs rt rl d1 d2 d3 receivers
          fail).errorLogs) := by
  refine ⟨?_, fun e he => ?_, fun e he => ?_, fun e he => ?_,
    fun e he => ?_⟩
  · simp [runCycle, publishGuarded, hr]
  all_goals simp [runCycle, publishGuarded, hr, he]

/-- Witness for the amended C7: with one receiver, the water publish
failing with `"boom"`, and all other publishes succeeding. -/
theorem cycle_publish_failures_isolated_witness :
    ([some "r"] : List (Option String)).length > 0 ∧
    (runCycle 0 ⟨50, 50, 20, 1000⟩ 0 0 0 0 1 1 1 [some "r"]
        (fun t => if t = plantWaterEventName then some "boom"
          else none)).published.map PublishedMsg.topic =
      [plantWaterEventName, plantSoilEventName, plantTempEventName,
       plantLightEventName] ∧
    ∀ e, (if plantWaterEventName = plantWaterEventName then some "boom"
        else none) = some e →
      ("Failed to publish water", e) ∈
        (runCycle 0 ⟨50, 50, 20, 1000⟩ 0 0 0 0 1 1 1 [some "r"]
          (fun t => if t = plantWaterEventName then some "boom"
            else none)).errorLogs :=
  ⟨by decide,
   (cycle_publish_failures_isolated 0 ⟨50, 50, 20, 1000⟩ 0 0 0 0 1 1 1
      [some "r"]
      (fun t => if t = plantWaterEventName then some "boom" else none)
      (by decide)).1,
   (cycle_publish_failures_isolated 0 ⟨50, 50, 20, 1000⟩ 0 0 0 0 1 1 1
      [some "r"]
      (fun t => if t = plantWaterEventName then some "boom" else none)
      (by decide)).2.1⟩

/-- C8: before the push-channel server is initialized (`ioRef = none`),
`emitToAll` warns and performs no delivery, for every channel and payload;
once initialized, it delivers the payload on that channel to every
connected client. -/
theorem emitToAll_init_guard (event : String) (payload : JVal) :
    emitToAll none event payload = { warned := true, deliveries := [] } ∧
    ∀ io : SocketServer,
      (emitToAll (some io) event payload).warned = false ∧
      (emitToAll (some io) event payload).deliveries =
        io.clients.map fun c => (c, event, payload) :=
  ⟨rfl, fun _ => ⟨rfl, rfl⟩⟩

/-- C9: the socket-side receiver list is the unfiltered one-element array
`[env]`, so it has length `1` even when the receiver identifier is
unconfigured; the `plant_*` handlers' empty-receivers guard therefore
always passes and the external publish is always attempted — with `none`
(JavaScript `undefined`) as the receiver entry when unconfigured. -/
theorem socket_receivers_always_nonempty (env : Option String)
    (topic : String) (payload : JVal) (fail : Option String) :
    (receiversIdSocket env).length = 1 ∧
    (plantHandlerPublish env topic payload fail).1 =
      [(topic, [env], payload)] ∧
    (plantHandlerPublish none topic payload fail).1 =
      [(topic, [none], payload)] :=
  ⟨rfl, rfl, rfl⟩

/-- C10: all four payloads published in one generator cycle carry the same
timestamp — the clock value captured once at the start of the cycle —
although the four transport calls happen at increasingly later times
separated by the pacing delays. -/
theorem cycle_timestamps_shared (startTime : ℤ) (s : SimState)
    (rw rs rt rl : ℚ) (d1 d2 d3 : ℤ) (receivers : List (Option String))
    (fail : String → Option String) (hr : receivers.length > 0) :
    (runCycle startTime s rw rs rt rl d1 d2 d3 receivers
        fail).published.map PublishedMsg.payloadTimestamp =
      [startTime, startTime, startTime, startTime] ∧
    (runCycle startTime s rw rs rt rl d1 d2 d3 receivers
        fail).published.map PublishedMsg.sendTime =
      [startTime, startTime + d1, startTime + d1 + d2,
       startTime + d1 + d2 + d3] := by
  constructor <;> simp [runCycle, publishGuarded, hr]

/-- Witness for C10, with one receiver, cycle start at `1000`, and pacing
delays `120`, `200`, `300`. -/
theorem cycle_timestamps_shared_witness :
    (runCycle 1000 ⟨50, 50, 20, 1000⟩ 0 0 0 0 120 200 300 [some "r"]
        (fun _ => none)).published.map PublishedMsg.payloadTimestamp =
      [1000, 1000, 1000, 1000] ∧
    (runCycle 1000 ⟨50, 50, 20, 1000⟩ 0 0 0 0 120 200 300 [some "r"]
        (fun _ => none)).published.map PublishedMsg.sendTime =
      [1000, 1000 + 120, 1000 + 120 + 200, 1000 + 120 + 200 + 300] :=
  cycle_timestamps_shared 1000 ⟨50, 50, 20, 1000⟩ 0 0 0 0 120 200 300
    [some "r"] (fun _ => none) (by decide)

end Greenleafy
